import Mathlib

/-!
# Verification of the buildkite-mcp-server job-log query engine and
# adaptive delivery controller

Shallow embedding of the log-query and delivery logic of the
buildkite-mcp-server repository:

* `pkg/buildkite/jobs.go` — `GetJobLogs`, `handleLargeLogFile`, the
  adaptive (inline vs. file) delivery controller;
* the job-log tool handlers (`SearchLogs`, `TailLogs`, `ReadLogs`,
  `parseCacheTTL`, `validateSearchPattern`, `formatLogEntries`);
* `pkg/config/config.go` — the `JobLogTokenThreshold` configuration.

External collaborators (the Go standard library's `regexp` and
`time.ParseDuration`, the buildkite-logs parquet reader, the token
estimator and log sanitizer) are either parametrised abstractly or
modelled from the specification; each such definition carries a doc
comment saying so.
-/

set_option autoImplicit false

namespace BuildkiteMCP

/-! ## Sanitization

`GetJobLogs` sanitizes the raw log through `joblogs.Process` and the
entry formatter sanitizes entry content/group through the library's
`CleanContent(true)` / `CleanGroup(true)`.  Neither function's source is
part of this repository snapshot, so the sanitizer is modelled from the
spec as an escape/markup-code stripper. -/

/-- The ASCII escape character that introduces ANSI escape sequences. -/
def escChar : Char := Char.ofNat 27

/-- States of the sanitizer: scanning normal text, just after an escape
character, or inside a CSI (`ESC [`) parameter sequence. -/
inductive SanState where
  | normal
  | esc
  | csi
deriving DecidableEq

/-- Modelled from the spec: one step of the markup/escape-code stripping
sanitizer.  Emits the characters that survive sanitization and moves to
the next scanner state.  In the `normal` state every character other
than the escape character is kept; an escape character opens a sequence
that is dropped entirely (a two-character `ESC x` sequence, or a CSI
sequence `ESC [ … final` whose final byte lies in `@`..`~`). -/
def sanStep : SanState → Char → SanState × List Char
  | .normal, c => if c = escChar then (.esc, []) else (.normal, [c])
  | .esc, c => if c = '[' then (.csi, []) else (.normal, [])
  | .csi, c => if ('@' : Char) ≤ c ∧ c ≤ ('~' : Char) then (.normal, []) else (.csi, [])

/-- Run the sanitizer state machine over a character list. -/
def sanRun : SanState → List Char → List Char
  | _, [] => []
  | st, c :: rest =>
    let step := sanStep st c
    step.2 ++ sanRun step.1 rest

/-- Modelled from the spec: the sanitizer applied to content and group
fields when markup/ANSI preservation is not requested (the repository's
`joblogs.Process` and the library's `CleanContent`/`CleanGroup`, whose
sources are not in this snapshot). -/
def sanitize (s : String) : String := ⟨sanRun .normal s.data⟩

/-- Characters emitted by the sanitizer never include the escape
character, regardless of the starting state. -/
theorem sanRun_escChar_not_mem (cs : List Char) :
    ∀ st : SanState, escChar ∉ sanRun st cs := by
  induction cs with
  | nil => intro st; simp [sanRun]
  | cons c rest ih =>
    intro st
    cases st with
    | normal =>
      by_cases h : c = escChar
      · simpa [sanRun, sanStep, h] using ih .esc
      · simpa [sanRun, sanStep, h, Ne.symm h] using ih .normal
    | esc =>
      by_cases h : c = '['
      · simpa [sanRun, sanStep, h] using ih .csi
      · simpa [sanRun, sanStep, h] using ih .normal
    | csi =>
      by_cases h : ('@' : Char) ≤ c ∧ c ≤ ('~' : Char)
      · simpa [sanRun, sanStep, h] using ih .normal
      · simpa [sanRun, sanStep, h] using ih .csi

/-- On escape-free input the sanitizer in the `normal` state is the
identity. -/
theorem sanRun_eq_self_of_escChar_not_mem (cs : List Char)
    (h : escChar ∉ cs) : sanRun .normal cs = cs := by
  induction cs with
  | nil => simp [sanRun]
  | cons c rest ih =>
    have hc : c ≠ escChar := fun hc => h (hc ▸ List.mem_cons_self c rest)
    have hrest : escChar ∉ rest := fun hr => h (List.mem_cons_of_mem c hr)
    simp [sanRun, sanStep, hc, ih hrest]

/-! ## Data model

The log-entry record of the buildkite-logs parquet library, as consumed
by the handlers in the repository (`LogEntry`/`TerseLogEntry` mirror its
fields in `jobs` handler code).  Go's `int64` fields are embedded as
`Int`. -/

/-- A raw log entry of the cached snapshot (the library's
`ParquetLogEntry` as consumed by the handler code). -/
structure ParquetLogEntry where
  timestamp : Int
  group : String
  content : String
  isCommand : Bool
  rowNumber : Int
deriving DecidableEq

/-- Modelled from the spec: the library's `HasTime` — `timestampMillis`
is optional, an entry has a time when a positive epoch-milliseconds
value is recorded. -/
def ParquetLogEntry.hasTime (e : ParquetLogEntry) : Bool := e.timestamp > 0

/-- Modelled from the spec: the library's `CleanContent(true)` — the
entry's content with markup/escape codes stripped. -/
def ParquetLogEntry.cleanContent (e : ParquetLogEntry) : String := sanitize e.content

/-- Modelled from the spec: the library's `CleanGroup(true)` — the
entry's group label with markup/escape codes stripped. -/
def ParquetLogEntry.cleanGroup (e : ParquetLogEntry) : String := sanitize e.group

/-- An immutable cached snapshot of one job's log: the ordered list of
its entries (the parquet reader's view of the cache file). -/
structure Snapshot where
  entries : List ParquetLogEntry
deriving DecidableEq

/-- The snapshot's total row count (the library `GetFileInfo`'s
`RowCount`). -/
def Snapshot.rowCount (s : Snapshot) : Int := s.entries.length

/-- The spec's snapshot invariant: row numbers are stable 0-based
ordinals, strictly increasing and gapless — entry `i` has row number
`i`. -/
def Snapshot.WellFormed (s : Snapshot) : Prop :=
  ∀ i : Fin s.entries.length, (s.entries.get i).rowNumber = (i.val : Int)

/-! ## Log query engine: the library iterators

The parquet reader's iterators are part of the external buildkite-logs
library; they are modelled from the spec's consumption contract. -/

/-- Modelled from the spec: the reader's `SeekToRow(startRow)` iterator —
the entries `[startRow, totalRows)` in ascending row order. -/
def seekToRow (s : Snapshot) (startRow : Int) : List ParquetLogEntry :=
  s.entries.drop startRow.toNat

/-- Modelled from the spec: the reader's `ReadEntriesIter` — all entries
from row 0 in ascending row order. -/
def readEntriesIter (s : Snapshot) : List ParquetLogEntry := s.entries

/-! ## The limit-bounded collection loop

Both `ReadLogs` and `SearchLogs` consume their iterator with the same
loop: append the element, increment the count, and break once
`limit > 0 && count >= limit`. -/

/-- The handler collection loop of `ReadLogs`/`SearchLogs`: consume the
source in order, stopping as soon as `limit` elements have been taken
when `limit > 0` (`limit <= 0` collects everything). `count` is the
number of elements collected so far. -/
def collectLimited {α : Type} (limit : Int) : Int → List α → List α
  | _, [] => []
  | count, x :: rest =>
    if limit > 0 ∧ count + 1 ≥ limit then [x]
    else x :: collectLimited limit (count + 1) rest

/-- With a positive limit, the collection loop takes exactly the first
`limit` elements of the source. -/
theorem collectLimited_eq_take {α : Type} (limit : Int) (src : List α)
    (hpos : 0 < limit) :
    ∀ count : Int, count < limit →
      collectLimited limit count src = src.take (limit - count).toNat := by
  induction src with
  | nil => intro count _; simp [collectLimited]
  | cons x rest ih =>
    intro count hcount
    by_cases hstop : limit > 0 ∧ count + 1 ≥ limit
    · have h1 : (limit - count).toNat = 1 := by omega
      simp [collectLimited, hstop, h1]
    · have hlt : count + 1 < limit := by
        rcases not_and_or.mp hstop with h | h
        · omega
        · omega
      have h2 : (limit - count).toNat = (limit - (count + 1)).toNat + 1 := by omega
      simp [collectLimited, hstop, ih (count + 1) hlt, h2, List.take_succ_cons]

/-- With a non-positive limit, the collection loop collects the entire
source (`0` means unlimited). -/
theorem collectLimited_eq_self {α : Type} (limit : Int) (src : List α)
    (h : limit ≤ 0) : ∀ count : Int, collectLimited limit count src = src := by
  induction src with
  | nil => intro count; simp [collectLimited]
  | cons x rest ih =>
    intro count
    have hstop : ¬(limit > 0 ∧ count + 1 ≥ limit) := fun hc => by omega
    simp [collectLimited, hstop, ih]

/-- Early termination: once the prefix already holds `limit` elements,
the loop never consumes the rest of the source. -/
theorem collectLimited_append {α : Type} (limit : Int) (xs ys : List α)
    (hpos : limit > 0) (hlen : limit.toNat ≤ xs.length) :
    collectLimited limit 0 (xs ++ ys) = collectLimited limit 0 xs := by
  rw [collectLimited_eq_take limit (xs ++ ys) hpos 0 (by omega),
    collectLimited_eq_take limit xs hpos 0 (by omega)]
  exact List.take_append_of_le_length (by omega)

/-! ## TailLogs and ReadLogs handler cores -/

/-- The tail start-row computation of the `TailLogs` handler:
`startRow := RowCount - tail`, clamped to `0` when negative. -/
def tailStartRow (rowCount tail : Int) : Int :=
  let startRow := rowCount - tail
  if startRow < 0 then 0 else startRow

/-- The entry computation of the `TailLogs` handler: a non-positive
`tail` parameter defaults to `10`; the entries from
`tailStartRow` to the end are collected via `SeekToRow`. -/
def tailLogsEntries (tailParam : Int) (snap : Snapshot) : List ParquetLogEntry :=
  let tail := if tailParam ≤ 0 then 10 else tailParam
  seekToRow snap (tailStartRow snap.rowCount tail)

/-- The entry computation of the `ReadLogs` handler: the iterator is
`SeekToRow(seek)` when `seek > 0` and `ReadEntriesIter` otherwise, and
it is consumed by the limit-bounded collection loop. -/
def readLogsEntries (seek limit : Int) (snap : Snapshot) : List ParquetLogEntry :=
  let entryIter := if seek > 0 then seekToRow snap seek else readEntriesIter snap
  collectLimited limit 0 entryIter

/-- For `seek ≥ 0` the `ReadLogs` iterator choice collapses to a single
drop: `ReadEntriesIter` equals `SeekToRow 0`. -/
theorem readLogsEntries_eq_drop_take (seek limit : Int) (snap : Snapshot)
    (hseek : 0 ≤ seek) (hlimit : 0 < limit) :
    readLogsEntries seek limit snap =
      (snap.entries.drop seek.toNat).take limit.toNat := by
  have hiter : (if seek > 0 then seekToRow snap seek else readEntriesIter snap) =
      snap.entries.drop seek.toNat := by
    by_cases h : seek > 0
    · simp [seekToRow, h]
    · have h0 : seek = 0 := by omega
      simp [readEntriesIter, h0]
  have hl : (limit - 0).toNat = limit.toNat := by omega
  rw [readLogsEntries, hiter, collectLimited_eq_take limit _ hlimit 0 hlimit, hl]

/-- `TailLogs` with a positive `tail` parameter returns exactly the
entries dropped up to `totalRows - tail`. -/
theorem tailLogsEntries_eq_drop (tailParam : Int) (snap : Snapshot)
    (hpos : 1 ≤ tailParam) :
    tailLogsEntries tailParam snap =
      snap.entries.drop (snap.entries.length - tailParam.toNat) := by
  have hnot : ¬ tailParam ≤ 0 := by omega
  have harg : (tailStartRow snap.rowCount tailParam).toNat =
      snap.entries.length - tailParam.toNat := by
    simp only [tailStartRow, Snapshot.rowCount]
    by_cases h : (snap.entries.length : Int) - tailParam < 0
    · simp only [h, if_true]; omega
    · simp only [h, if_false]; omega
  simp [tailLogsEntries, hnot, seekToRow, harg]

/-! ## Handler parameters, outcomes and cache resolution -/

/-- The common per-request identity and formatting fields shared by the
log tools (`JobLogsBaseParams`). -/
structure JobLogsBaseParams where
  org : String
  pipeline : String
  build : String
  job : String
  format : String := ""
  raw : Bool := false
  preserveANSI : Bool := false
  cacheTTL : String := ""
  forceRefresh : Bool := false
deriving DecidableEq

/-- The request fields of the `search_logs` tool (`SearchLogsParams`). -/
structure SearchLogsParams where
  base : JobLogsBaseParams
  pattern : String
  context : Int := 0
  beforeContext : Int := 0
  afterContext : Int := 0
  caseSensitive : Bool := false
  invertMatch : Bool := false
  reverse : Bool := false
  seekStart : Int := 0
  limit : Int := 0
deriving DecidableEq

/-- The outcome of one tool-handler invocation.  A `hard` outcome is the
handler returning a non-nil Go error (a protocol-level fault); a `soft`
outcome is `mcp.NewToolResultError(msg), nil` — descriptive text inside
the normal success envelope; `ok` is a successful result. -/
inductive ToolOutcome (α : Type) where
  | hard (msg : String)
  | soft (msg : String)
  | ok (val : α)
deriving DecidableEq

/-- One nanosecond-denominated second of Go's `time.Duration`. -/
def nsPerSecond : Int := 1000000000

/-- `parseCacheTTL`: empty strings and strings the duration parser
rejects fall back to 30 seconds.  The Go standard library's
`time.ParseDuration` is an external collaborator, passed in as
`parseDuration`. -/
def parseCacheTTL (parseDuration : String → Option Int) (ttlStr : String) : Int :=
  if ttlStr = "" then 30 * nsPerSecond
  else
    match parseDuration ttlStr with
    | none => 30 * nsPerSecond
    | some duration => duration

/-- Modelled from the spec: the fragment of Go's `time.ParseDuration`
needed to evaluate the claims on concrete inputs — an optional sign,
decimal digits and a unit of `s` or `m`; everything else is rejected. -/
def goParseDurationModel (s : String) : Option Int :=
  let chars := s.data
  let digits := chars.takeWhile Char.isDigit
  let rest := chars.drop digits.length
  if digits = [] then none
  else
    let value : Int := digits.foldl (fun acc c => acc * 10 + (c.toNat - 48)) 0
    if rest = ['s'] then some (value * nsPerSecond)
    else if rest = ['m'] then some (value * 60 * nsPerSecond)
    else none

/-- `newParquetReader`: parse the cache TTL, then download/cache through
the injected client and open the snapshot.  The external cache store is
the injected `resolve` capability (TTL, force-refresh); its failure text
is wrapped exactly as the source wraps `DownloadAndCache` errors. -/
def newParquetReader (parseDuration : String → Option Int)
    (resolve : Int → Bool → Except String Snapshot)
    (params : JobLogsBaseParams) : Except String Snapshot :=
  let ttl := parseCacheTTL parseDuration params.cacheTTL
  match resolve ttl params.forceRefresh with
  | .error e => .error ("failed to download/cache logs: " ++ e)
  | .ok snap => .ok snap

/-- `validateSearchPattern`: compile the pattern, wrapping a compile
failure as `invalid regex pattern: …`.  The Go `regexp` compiler is an
external collaborator, passed in as `compile` (returning `some errText`
on failure). -/
def validateSearchPattern (compile : String → Option String)
    (pattern : String) : Option String :=
  match compile pattern with
  | some err => some ("invalid regex pattern: " ++ err)
  | none => none

/-- Modelled from the spec: scanner underlying `goRegexpCompileModel` —
tracks whether the position is inside a `[`-opened character class and
accepts iff every opened class is closed at the end. -/
def bracketScan : Bool → List Char → Bool
  | inClass, [] => !inClass
  | false, c :: rest => bracketScan (c == '[') rest
  | true, c :: rest => bracketScan (c != ']') rest

/-- Modelled from the spec: the fragment of Go's `regexp.Compile` needed
to evaluate the claims — accepts a pattern iff every character class
opened with `[` is closed with `]`, so that the spec's scenario pattern
`"["` fails to compile.  The error text mirrors Go's. -/
def goRegexpCompileModel (pattern : String) : Option String :=
  if bracketScan false pattern.data then none
  else some ("error parsing regexp: missing closing ]: `" ++ pattern ++ "`")

/-! ## SearchLogs: the library search model and the handler -/

/-- The library's `SearchOptions` as consumed by the handler.  The
upstream struct includes the seek-start position the spec's Search
contract scans from; fields left unset by the handler take Go's zero
values, recorded here as defaults. -/
structure SearchOptions where
  pattern : String := ""
  caseSensitive : Bool := false
  invertMatch : Bool := false
  reverse : Bool := false
  context : Int := 0
  beforeContext : Int := 0
  afterContext : Int := 0
  seekStart : Int := 0
deriving DecidableEq

/-- A search hit: the matched entry with its before/after context
entries in original stream order (the library's `SearchResult`). -/
structure SearchResult where
  matchedEntry : ParquetLogEntry
  beforeEntries : List ParquetLogEntry
  afterEntries : List ParquetLogEntry
deriving DecidableEq

/-- Modelled from the spec: the effective before-context — a single
`context` value sets both directions symmetrically when provided. -/
def effectiveBefore (o : SearchOptions) : Int :=
  if o.context > 0 then o.context else o.beforeContext

/-- Modelled from the spec: the effective after-context. -/
def effectiveAfter (o : SearchOptions) : Int :=
  if o.context > 0 then o.context else o.afterContext

/-- Modelled from the spec: the candidate row order of one search —
forward from `seekStart` when `reverse = false`, backward from the end
(or from `seekStart` when given) when `reverse = true`. -/
def searchRowOrder (total : Nat) (o : SearchOptions) : List Nat :=
  if o.reverse then
    let stop := if o.seekStart > 0 then min (o.seekStart.toNat + 1) total else total
    (List.range stop).reverse
  else
    (List.range total).drop o.seekStart.toNat

/-- Modelled from the spec: the match predicate — "pattern matches
content" XOR `invertMatch`, with the compiled matcher `m` applied under
the requested case sensitivity. -/
def entryMatches (m : Bool → String → String → Bool) (o : SearchOptions)
    (e : ParquetLogEntry) : Bool :=
  Bool.xor (m o.caseSensitive o.pattern e.content) o.invertMatch

/-- Modelled from the spec: the library's `SearchEntriesIter` — walk the
candidate rows in order and, for each matching entry, emit a
`SearchResult` with up to `beforeContext` preceding and `afterContext`
following entries. -/
def searchEntriesIter (m : Bool → String → String → Bool) (snap : Snapshot)
    (o : SearchOptions) : List SearchResult :=
  (searchRowOrder snap.entries.length o).filterMap fun i =>
    match snap.entries[i]? with
    | none => none
    | some e =>
      if entryMatches m o e then
        some { matchedEntry := e
               beforeEntries :=
                 (snap.entries.take i).drop (i - (effectiveBefore o).toNat)
               afterEntries :=
                 (snap.entries.drop (i + 1)).take (effectiveAfter o).toNat }
      else none

/-- The handler's construction of the library `SearchOptions`
(part_006, lines 328–336): pattern, case sensitivity, invert, reverse
and the three context fields are copied from the request; the
`seekStart` request field is not copied, so the option keeps Go's zero
value. -/
def buildSearchOptions (p : SearchLogsParams) : SearchOptions :=
  { pattern := p.pattern
    caseSensitive := p.caseSensitive
    invertMatch := p.invertMatch
    reverse := p.reverse
    context := p.context
    beforeContext := p.beforeContext
    afterContext := p.afterContext }

/-- The observable result of one `search_logs` invocation: the outcome
together with whether cache resolution was triggered. -/
structure SearchRunResult where
  outcome : ToolOutcome (List SearchResult)
  cacheAccessed : Bool
deriving DecidableEq

/-- The `SearchLogs` handler: validate the pattern (before any cache
access), resolve the cached snapshot, run the library search and
collect up to `limit` matches.  `compile` and `m` stand for the external
regexp compiler and compiled matcher, `parseDuration` for
`time.ParseDuration`, `resolve` for the injected cache client. -/
def searchLogsRun (compile : String → Option String)
    (m : Bool → String → String → Bool)
    (parseDuration : String → Option Int)
    (resolve : Int → Bool → Except String Snapshot)
    (p : SearchLogsParams) : SearchRunResult :=
  match validateSearchPattern compile p.pattern with
  | some msg => { outcome := .soft msg, cacheAccessed := false }
  | none =>
    match newParquetReader parseDuration resolve p.base with
    | .error e =>
      { outcome := .soft ("Failed to create log reader: " ++ e)
        cacheAccessed := true }
    | .ok snap =>
      let results :=
        collectLimited p.limit 0 (searchEntriesIter m snap (buildSearchOptions p))
      { outcome := .ok results, cacheAccessed := true }

/-! ## Adaptive delivery controller (whole-log fetch)

`GetJobLogs` and `handleLargeLogFile` from `pkg/buildkite/jobs.go`.
Disk and API effects are injected as environments recording each
operation's result, so the handler's control flow can be followed
exactly. -/

/-- Modelled from the spec: `tokens.EstimateTokens` (its source is not
in this snapshot) — a cheap, deterministic heuristic that is monotonic
in the content's length: roughly one token per four characters, rounded
up. -/
def EstimateTokens (s : String) : Int := ((s.length : Int) + 3) / 4

/-- Modelled from the spec: `joblogs.Process` (its source is not in this
snapshot) — the whole-log sanitizer that strips ANSI/markup codes from
the raw API log before delivery. -/
def joblogsProcess (raw : String) : String := sanitize raw

/-- The typed request of the `get_job_logs` tool (`GetJobLogsArgs`). -/
structure GetJobLogsArgs where
  orgSlug : String
  pipelineSlug : String
  buildNumber : String
  jobUUID : String
deriving DecidableEq

/-- The unified whole-log response (`JobLogsResponse`).  Fields the Go
code leaves at their zero value and serializes with `omitempty` are
embedded as `Option` set to `none`. -/
structure JobLogsResponse where
  deliveryMode : String := ""
  content : Option String := none
  filePath : Option String := none
  fileSizeBytes : Option Int := none
  tokenCount : Int := 0
  jobUUID : String := ""
  buildNumber : String := ""
  reason : Option String := none
deriving DecidableEq

/-- A file written by file-mode delivery: its path and the exact bytes
written. -/
structure FileWrite where
  path : String
  bytes : String
deriving DecidableEq

/-- A whole-log delivery: the response plus the file write it performed,
if any. -/
structure DeliveryEffect where
  response : JobLogsResponse
  written : Option FileWrite
deriving DecidableEq

/-- The disk environment of `handleLargeLogFile`: the results of
`os.MkdirTemp` (the created directory path), `os.Create`,
`WriteString` and `Stat` (the file size), injected per run. -/
structure DiskEnv where
  mkdirTemp : Except String String
  createFile : Except String Unit
  writeFile : Except String Unit
  statSize : Except String Int

/-- The API environment of `GetJobLogs`: the result of
`client.Jobs.GetJobLog` (the raw log content on success), the HTTP
status check, and the body read used on a non-OK status. -/
structure ApiEnv where
  getJobLog : Except String String
  statusOK : Bool
  readBody : Except String String

/-- `handleLargeLogFile`: create an exclusive temporary directory,
write the full processed text to `job.log` there, stat it, and fill the
response with file mode, absolute path, byte size and the reason naming
the exceeded threshold.  Every disk failure is returned as a non-nil Go
error — a `hard` outcome.  (`filepath.Abs` is modelled as the identity
on the already-absolute temporary path.) -/
def handleLargeLogFile (disk : DiskEnv) (processedLog : String)
    (response : JobLogsResponse) (threshold : Int) :
    ToolOutcome DeliveryEffect :=
  match disk.mkdirTemp with
  | .error e => .hard ("failed to create temporary output directory: " ++ e)
  | .ok outputDir =>
    let filePath := outputDir ++ "/job.log"
    match disk.createFile with
    | .error e => .hard ("failed to create log file: " ++ e)
    | .ok _ =>
      match disk.writeFile with
      | .error e => .hard ("failed to write log file: " ++ e)
      | .ok _ =>
        match disk.statSize with
        | .error e => .hard ("failed to get file info: " ++ e)
        | .ok size =>
          .ok { response :=
                  { response with
                    deliveryMode := "file"
                    filePath := some filePath
                    fileSizeBytes := some size
                    reason := some ("Log exceeded " ++ toString threshold ++
                      " token threshold, saved to file") }
                written := some { path := filePath, bytes := processedLog } }

/-- `GetJobLogs`: validate the request, fetch the raw log, sanitize it
through `joblogsProcess`, estimate its token count, and deliver inline
unless a positive configured threshold is strictly exceeded, in which
case `handleLargeLogFile` takes over.  `threshold` is the configured
`JobLogTokenThreshold` (default 0). -/
def getJobLogs (disk : DiskEnv) (api : ApiEnv) (threshold : Int)
    (args : GetJobLogsArgs) : ToolOutcome DeliveryEffect :=
  if args.orgSlug = "" then .soft "org_slug parameter is required"
  else if args.pipelineSlug = "" then .soft "pipeline_slug parameter is required"
  else if args.buildNumber = "" then .soft "build_number parameter is required"
  else if args.jobUUID = "" then .soft "job_uuid parameter is required"
  else
    match api.getJobLog with
    | .error e => .soft e
    | .ok rawLog =>
      if !api.statusOK then
        match api.readBody with
        | .error e => .hard ("failed to read response body: " ++ e)
        | .ok body => .soft ("failed to get job logs: " ++ body)
      else
        let processedLog := joblogsProcess rawLog
        let tokenCount := EstimateTokens processedLog
        if threshold > 0 ∧ tokenCount > threshold then
          handleLargeLogFile disk processedLog
            { tokenCount := tokenCount
              jobUUID := args.jobUUID
              buildNumber := args.buildNumber
              reason := some ("Log exceeded " ++ toString threshold ++
                " token threshold") }
            threshold
        else
          .ok { response :=
                  { deliveryMode := "inline"
                    content := some processedLog
                    tokenCount := tokenCount
                    jobUUID := args.jobUUID
                    buildNumber := args.buildNumber }
                written := none }

/-- All four request identity fields are present. -/
def ArgsValid (args : GetJobLogsArgs) : Prop :=
  args.orgSlug ≠ "" ∧ args.pipelineSlug ≠ "" ∧
    args.buildNumber ≠ "" ∧ args.jobUUID ≠ ""

instance (args : GetJobLogsArgs) : Decidable (ArgsValid args) := by
  unfold ArgsValid; infer_instance

/-- Every disk operation of this run succeeds. -/
def DiskOk (d : DiskEnv) : Prop :=
  (∃ dir, d.mkdirTemp = .ok dir) ∧ d.createFile = .ok () ∧
    d.writeFile = .ok () ∧ ∃ n, d.statSize = .ok n

/-- The delivery mode of a successful outcome. -/
def deliveryModeOf (out : ToolOutcome DeliveryEffect) : Option String :=
  match out with
  | .ok eff => some eff.response.deliveryMode
  | _ => none

/-! ## Entry formatter

`formatLogEntries` and the two structured encodings.  Go-side structs
are embedded with their zero-value defaults; the `omitempty` JSON
serialization is modelled by a separate encoding step that maps
zero-valued fields to `none` (absent from the emitted object). -/

/-- The Go `TerseLogEntry` struct as populated by `formatLogEntries`
(zero values for fields left unset). -/
structure TerseLogEntryGo where
  ts : Int := 0
  g : String := ""
  c : String
  cmd : Bool := false
  rn : Int := 0
deriving DecidableEq

/-- The Go `LogEntry` struct (verbose structured encoding) as populated
by `formatLogEntries`. -/
structure LogEntryGo where
  timestamp : Int := 0
  group : String := ""
  content : String
  command : Bool := false
  rowNumber : Int := 0
deriving DecidableEq

/-- `encoding/json`'s `omitempty` on an integer field: present iff
non-zero. -/
def omitemptyInt (v : Int) : Option Int := if v = 0 then none else some v

/-- `encoding/json`'s `omitempty` on a string field: present iff
non-empty. -/
def omitemptyStr (v : String) : Option String := if v = "" then none else some v

/-- `encoding/json`'s `omitempty` on a boolean field: present iff
true. -/
def omitemptyBool (v : Bool) : Option Bool := if v = false then none else some v

/-- The serialized terse object: which fields appear in the emitted
JSON, after `omitempty` (all fields except `c` carry it). -/
structure TerseJson where
  ts : Option Int
  g : Option String
  c : String
  cmd : Option Bool
  rn : Option Int
deriving DecidableEq

/-- The serialized verbose object: `content` has no `omitempty`, every
other field does. -/
structure VerboseJson where
  timestamp : Option Int
  group : Option String
  content : String
  command : Option Bool
  rowNumber : Option Int
deriving DecidableEq

/-- Serialize a terse struct under the struct's `omitempty` tags. -/
def encodeTerse (t : TerseLogEntryGo) : TerseJson :=
  { ts := omitemptyInt t.ts
    g := omitemptyStr t.g
    c := t.c
    cmd := omitemptyBool t.cmd
    rn := omitemptyInt t.rn }

/-- Serialize a verbose struct under the struct's `omitempty` tags. -/
def encodeVerbose (t : LogEntryGo) : VerboseJson :=
  { timestamp := omitemptyInt t.timestamp
    group := omitemptyStr t.group
    content := t.content
    command := omitemptyBool t.command
    rowNumber := omitemptyInt t.rowNumber }

/-- The `json-terse` branch of `formatLogEntries` for one entry:
content/group are sanitized unless ANSI preservation is requested;
`TS` is set only when the entry has a time, `G` only when the group is
non-empty, `RN` only when the row number is positive. -/
def terseGoOfEntry (preserveANSI : Bool) (e : ParquetLogEntry) : TerseLogEntryGo :=
  let content := if preserveANSI then e.content else e.cleanContent
  let group := if preserveANSI then e.group else e.cleanGroup
  let t0 : TerseLogEntryGo := { c := content }
  let t1 := if e.hasTime then { t0 with ts := e.timestamp } else t0
  let t2 := if group ≠ "" then { t1 with g := group } else t1
  if e.rowNumber > 0 then { t2 with rn := e.rowNumber } else t2

/-- The `json` branch of `formatLogEntries` for one entry: content and
group are always stored; `Timestamp` only when the entry has a time,
`RowNumber` only when positive; `Command` is never set. -/
def verboseGoOfEntry (preserveANSI : Bool) (e : ParquetLogEntry) : LogEntryGo :=
  let content := if preserveANSI then e.content else e.cleanContent
  let group := if preserveANSI then e.group else e.cleanGroup
  let t0 : LogEntryGo := { content := content, group := group }
  let t1 := if e.hasTime then { t0 with timestamp := e.timestamp } else t0
  if e.rowNumber > 0 then { t1 with rowNumber := e.rowNumber } else t1

/-- Modelled from the spec: the text-format timestamp prefix.  The Go
code formats `time.UnixMilli(ts)` with a wall-clock layout; the exact
calendar rendering is external, modelled as the decimal milliseconds. -/
def formatTimestampText (ts : Int) : String := "[" ++ toString ts ++ "] "

/-- The `text` branch of `formatLogEntries` for one entry: optional
timestamp prefix, optional group label, then the content. -/
def textLineOfEntry (preserveANSI : Bool) (e : ParquetLogEntry) : String :=
  let content := if preserveANSI then e.content else e.cleanContent
  let group := if preserveANSI then e.group else e.cleanGroup
  let line := if e.hasTime then formatTimestampText e.timestamp else ""
  let line := if group ≠ "" then line ++ "[" ++ group ++ "] " else line
  line ++ content

/-- The formatter's result: one of the four output encodings. -/
inductive FormattedEntries where
  | rawStrings (items : List String)
  | terse (items : List TerseLogEntryGo)
  | verbose (items : List LogEntryGo)
  | textLines (items : List String)
deriving DecidableEq

/-- `formatLogEntries`: `raw` short-circuits to content-only strings;
otherwise the format switch selects terse structured (`json-terse`),
verbose structured (`json`) or the default text rendering. -/
def formatLogEntries (entries : List ParquetLogEntry) (format : String)
    (raw : Bool) (preserveANSI : Bool) : FormattedEntries :=
  if raw then
    .rawStrings (entries.map fun e =>
      if preserveANSI then e.content else e.cleanContent)
  else if format = "json-terse" then
    .terse (entries.map (terseGoOfEntry preserveANSI))
  else if format = "json" then
    .verbose (entries.map (verboseGoOfEntry preserveANSI))
  else
    .textLines (entries.map (textLineOfEntry preserveANSI))

/-! ## Concrete demonstration inputs -/

/-- A fully populated whole-log request. -/
def argsDemo : GetJobLogsArgs :=
  { orgSlug := "acme", pipelineSlug := "web", buildNumber := "42",
    jobUUID := "0193-abc" }

/-- A disk environment in which every operation succeeds. -/
def diskOkDemo : DiskEnv :=
  { mkdirTemp := .ok "/tmp/buildkite-job-logs-123", createFile := .ok ()
    writeFile := .ok (), statSize := .ok 12 }

/-- An API environment returning a 12-character log with status 200. -/
def apiOkDemo : ApiEnv :=
  { getJobLog := .ok "hello world!", statusOK := true, readBody := .ok "" }

/-- Base identity fields for the log-query tools. -/
def baseDemo : JobLogsBaseParams :=
  { org := "acme", pipeline := "web", build := "42", job := "0193-abc" }

/-! ## Claim C8 — sanitization is idempotent -/

/-- Claim C8: the sanitization applied to entry content and group fields
(whenever markup/ANSI preservation is not requested) is idempotent:
`sanitize (sanitize x) = sanitize x` for every input string `x`. -/
theorem sanitize_idempotent (x : String) :
    sanitize (sanitize x) = sanitize x := by
  unfold sanitize
  exact congrArg String.mk
    (sanRun_eq_self_of_escChar_not_mem _ (sanRun_escChar_not_mem _ _))

/-! ## Claim C1 — the delivery-mode decision -/

/-- The delivery mode of a successful, fully valid whole-log fetch is
exactly the threshold comparison on the sanitized content's estimated
token count. -/
theorem getJobLogs_mode_eq (disk : DiskEnv) (api : ApiEnv)
    (threshold : Int) (args : GetJobLogsArgs) (raw : String)
    (hargs : ArgsValid args) (hapi : api.getJobLog = .ok raw)
    (hstatus : api.statusOK = true) (hdisk : DiskOk disk) :
    deliveryModeOf (getJobLogs disk api threshold args) =
      some (if threshold > 0 ∧ EstimateTokens (joblogsProcess raw) > threshold
            then "file" else "inline") := by
  obtain ⟨h1, h2, h3, h4⟩ := hargs
  obtain ⟨⟨dir, hdir⟩, hcr, hwr, n, hst⟩ := hdisk
  by_cases hdec : threshold > 0 ∧ EstimateTokens (joblogsProcess raw) > threshold
  · simp [getJobLogs, h1, h2, h3, h4, hapi, hstatus, hdec, handleLargeLogFile,
      hdir, hcr, hwr, hst, deliveryModeOf]
  · simp [getJobLogs, h1, h2, h3, h4, hapi, hstatus, hdec, deliveryModeOf]

/-- Claim C1: for the whole-log fetch, the delivery-mode decision is a
pure, deterministic function of the sanitized log content and the
configured threshold — the mode is `file` iff a threshold `> 0` is
configured and the estimated token count of the sanitized content
strictly exceeds it, and `inline` in every other case; any two
successful calls with identical sanitized content and threshold yield
the identical mode. -/
theorem getJobLogs_mode_iff_threshold (disk : DiskEnv) (api : ApiEnv)
    (threshold : Int) (args : GetJobLogsArgs) (raw : String)
    (hargs : ArgsValid args) (hapi : api.getJobLog = .ok raw)
    (hstatus : api.statusOK = true) (hdisk : DiskOk disk) :
    deliveryModeOf (getJobLogs disk api threshold args) =
      some (if threshold > 0 ∧ EstimateTokens (joblogsProcess raw) > threshold
            then "file" else "inline") ∧
    ∀ (disk₂ : DiskEnv) (api₂ : ApiEnv) (args₂ : GetJobLogsArgs) (raw₂ : String),
      ArgsValid args₂ → api₂.getJobLog = .ok raw₂ → api₂.statusOK = true →
      DiskOk disk₂ → joblogsProcess raw₂ = joblogsProcess raw →
      deliveryModeOf (getJobLogs disk₂ api₂ threshold args₂) =
        deliveryModeOf (getJobLogs disk api threshold args) := by
  refine ⟨getJobLogs_mode_eq disk api threshold args raw
    ⟨hargs.1, hargs.2.1, hargs.2.2.1, hargs.2.2.2⟩ hapi hstatus hdisk,
    fun disk₂ api₂ args₂ raw₂ hargs₂ hapi₂ hstatus₂ hdisk₂ hsame => ?_⟩
  rw [getJobLogs_mode_eq disk₂ api₂ threshold args₂ raw₂ hargs₂ hapi₂ hstatus₂ hdisk₂,
    getJobLogs_mode_eq disk api threshold args raw hargs hapi hstatus hdisk, hsame]

/-- Witness for claim C1: with threshold 1 and the 12-character log
(estimated at 3 tokens), the delivery mode is `file`. -/
theorem getJobLogs_mode_iff_threshold_witness :
    deliveryModeOf (getJobLogs diskOkDemo apiOkDemo 1 argsDemo) = some "file" := by
  have h := (getJobLogs_mode_iff_threshold diskOkDemo apiOkDemo 1 argsDemo
    "hello world!" (by decide) rfl rfl
    ⟨⟨"/tmp/buildkite-job-logs-123", rfl⟩, rfl, rfl, 12, rfl⟩).1
  rw [h]
  decide

/-! ## Claim C6 — file bytes equal inline content -/

/-- Shape of every successful whole-log fetch: any file written carries
exactly the sanitized text, and an inline response carries exactly the
sanitized text. -/
theorem getJobLogs_ok_content (disk : DiskEnv) (api : ApiEnv)
    (threshold : Int) (args : GetJobLogsArgs) (raw : String)
    (eff : DeliveryEffect)
    (hargs : ArgsValid args) (hapi : api.getJobLog = .ok raw)
    (hstatus : api.statusOK = true)
    (hrun : getJobLogs disk api threshold args = .ok eff) :
    (∀ w, eff.written = some w → w.bytes = joblogsProcess raw) ∧
    (eff.response.deliveryMode = "inline" →
      eff.response.content = some (joblogsProcess raw)) := by
  obtain ⟨h1, h2, h3, h4⟩ := hargs
  by_cases hdec : threshold > 0 ∧ EstimateTokens (joblogsProcess raw) > threshold
  · cases hmk : disk.mkdirTemp with
    | error e =>
      simp [getJobLogs, h1, h2, h3, h4, hapi, hstatus, hdec,
        handleLargeLogFile, hmk] at hrun
    | ok dir =>
      cases hcf : disk.createFile with
      | error e =>
        simp [getJobLogs, h1, h2, h3, h4, hapi, hstatus, hdec,
          handleLargeLogFile, hmk, hcf] at hrun
      | ok u =>
        cases hwfl : disk.writeFile with
        | error e =>
          simp [getJobLogs, h1, h2, h3, h4, hapi, hstatus, hdec,
            handleLargeLogFile, hmk, hcf, hwfl] at hrun
        | ok u' =>
          cases hss : disk.statSize with
          | error e =>
            simp [getJobLogs, h1, h2, h3, h4, hapi, hstatus, hdec,
              handleLargeLogFile, hmk, hcf, hwfl, hss] at hrun
          | ok size =>
            simp only [getJobLogs, h1, h2, h3, h4, hapi, hstatus, hdec,
              handleLargeLogFile, hmk, hcf, hwfl, hss, if_neg, if_pos,
              and_self, Bool.not_true, Bool.false_eq_true, ite_false,
              ite_true, ToolOutcome.ok.injEq] at hrun
            obtain rfl := hrun
            refine ⟨fun w hw => ?_, fun hmode => ?_⟩
            · simp only [Option.some.injEq] at hw
              rw [← hw]
            · simp at hmode
  · simp [getJobLogs, h1, h2, h3, h4, hapi, hstatus, hdec] at hrun
    obtain rfl := hrun
    exact ⟨fun w hw => by simp at hw, fun _ => rfl⟩

/-- Claim C6: for every whole-log fetch that chooses file-mode delivery,
the bytes written to the file are identical to the content string that
inline-mode delivery returns for the same raw input: both are exactly
the sanitized log text, produced by the single `joblogsProcess`
formatting path. -/
theorem file_bytes_eq_inline_content
    (disk disk₂ : DiskEnv) (api api₂ : ApiEnv) (t t₂ : Int)
    (args args₂ : GetJobLogsArgs) (raw : String)
    (eff eff₂ : DeliveryEffect) (w : FileWrite)
    (hargs : ArgsValid args) (hapi : api.getJobLog = .ok raw)
    (hstatus : api.statusOK = true)
    (hargs₂ : ArgsValid args₂) (hapi₂ : api₂.getJobLog = .ok raw)
    (hstatus₂ : api₂.statusOK = true)
    (hrun : getJobLogs disk api t args = .ok eff)
    (hw : eff.written = some w)
    (hrun₂ : getJobLogs disk₂ api₂ t₂ args₂ = .ok eff₂)
    (hmode₂ : eff₂.response.deliveryMode = "inline") :
    some w.bytes = eff₂.response.content ∧ w.bytes = joblogsProcess raw := by
  have hA := getJobLogs_ok_content disk api t args raw eff hargs hapi hstatus hrun
  have hB := getJobLogs_ok_content disk₂ api₂ t₂ args₂ raw eff₂ hargs₂ hapi₂
    hstatus₂ hrun₂
  have hbytes := hA.1 w hw
  rw [hB.2 hmode₂, hbytes]
  exact ⟨rfl, rfl⟩

/-- The file-mode delivery effect produced by the demonstration run with
threshold 1. -/
def effFileDemo : DeliveryEffect :=
  { response :=
      { deliveryMode := "file"
        content := none
        filePath := some "/tmp/buildkite-job-logs-123/job.log"
        fileSizeBytes := some 12
        tokenCount := 3
        jobUUID := "0193-abc"
        buildNumber := "42"
        reason := some "Log exceeded 1 token threshold, saved to file" }
    written := some { path := "/tmp/buildkite-job-logs-123/job.log"
                      bytes := "hello world!" } }

/-- The inline delivery effect produced by the demonstration run with
threshold 0. -/
def effInlineDemo : DeliveryEffect :=
  { response :=
      { deliveryMode := "inline"
        content := some "hello world!"
        filePath := none
        fileSizeBytes := none
        tokenCount := 3
        jobUUID := "0193-abc"
        buildNumber := "42"
        reason := none }
    written := none }

/-- The file write performed by the demonstration file-mode run. -/
def fileWriteDemo : FileWrite :=
  { path := "/tmp/buildkite-job-logs-123/job.log", bytes := "hello world!" }

/-- Witness for claim C6: the demonstration file-mode run (threshold 1)
writes exactly the bytes that the inline run (threshold 0) returns as
content. -/
theorem file_bytes_eq_inline_content_witness :
    some fileWriteDemo.bytes = effInlineDemo.response.content ∧
      fileWriteDemo.bytes = joblogsProcess "hello world!" :=
  file_bytes_eq_inline_content diskOkDemo diskOkDemo apiOkDemo apiOkDemo 1 0
    argsDemo argsDemo "hello world!" effFileDemo effInlineDemo fileWriteDemo
    (by decide) rfl rfl (by decide) rfl rfl (by decide) (by decide) (by decide)
    (by decide)

/-! ## Claim C7 — propagation of externally caused failures -/

/-- A disk environment whose temporary-directory creation fails. -/
def diskMkdirFailDemo : DiskEnv :=
  { mkdirTemp := .error "disk full", createFile := .ok ()
    writeFile := .ok (), statSize := .ok 0 }

/-- Claim C7 counterexample: a disk failure while creating the temporary
directory during file-mode delivery is surfaced as a hard,
protocol-level fault (a non-nil Go error), not as soft text inside the
success envelope. -/
theorem disk_failure_is_hard_cex :
    getJobLogs diskMkdirFailDemo apiOkDemo 1 argsDemo =
      .hard "failed to create temporary output directory: disk full" := by
  decide

/-- Claim C7 (amended): every missing required field, job-log API
failure, non-OK API status and cache-resolution failure is reported as
soft text inside the success envelope, but a disk failure while creating
the temporary directory, creating the log file, or writing its content
during file-mode delivery aborts the operation as a hard protocol-level
fault. -/
theorem external_failure_propagation :
    (∀ (disk : DiskEnv) (api : ApiEnv) (t : Int) (args : GetJobLogsArgs),
      args.orgSlug = "" →
        getJobLogs disk api t args = .soft "org_slug parameter is required") ∧
    (∀ (disk : DiskEnv) (api : ApiEnv) (t : Int) (args : GetJobLogsArgs),
      args.orgSlug ≠ "" → args.pipelineSlug = "" →
        getJobLogs disk api t args =
          .soft "pipeline_slug parameter is required") ∧
    (∀ (disk : DiskEnv) (api : ApiEnv) (t : Int) (args : GetJobLogsArgs),
      args.orgSlug ≠ "" → args.pipelineSlug ≠ "" → args.buildNumber = "" →
        getJobLogs disk api t args =
          .soft "build_number parameter is required") ∧
    (∀ (disk : DiskEnv) (api : ApiEnv) (t : Int) (args : GetJobLogsArgs),
      args.orgSlug ≠ "" → args.pipelineSlug ≠ "" → args.buildNumber ≠ "" →
      args.jobUUID = "" →
        getJobLogs disk api t args =
          .soft "job_uuid parameter is required") ∧
    (∀ (disk : DiskEnv) (api : ApiEnv) (t : Int) (args : GetJobLogsArgs)
        (e : String), ArgsValid args → api.getJobLog = .error e →
        getJobLogs disk api t args = .soft e) ∧
    (∀ (disk : DiskEnv) (api : ApiEnv) (t : Int) (args : GetJobLogsArgs)
        (raw body : String), ArgsValid args → api.getJobLog = .ok raw →
        api.statusOK = false → api.readBody = .ok body →
        getJobLogs disk api t args =
          .soft ("failed to get job logs: " ++ body)) ∧
    (∀ (compile : String → Option String) (m : Bool → String → String → Bool)
        (parseDuration : String → Option Int)
        (resolve : Int → Bool → Except String Snapshot)
        (p : SearchLogsParams) (e : String),
        compile p.pattern = none →
        resolve (parseCacheTTL parseDuration p.base.cacheTTL)
            p.base.forceRefresh = .error e →
        (searchLogsRun compile m parseDuration resolve p).outcome =
          .soft ("Failed to create log reader: " ++
            ("failed to download/cache logs: " ++ e))) ∧
    (∀ (disk : DiskEnv) (api : ApiEnv) (t : Int) (args : GetJobLogsArgs)
        (raw e : String), ArgsValid args → api.getJobLog = .ok raw →
        api.statusOK = true → disk.mkdirTemp = .error e → t > 0 →
        EstimateTokens (joblogsProcess raw) > t →
        getJobLogs disk api t args =
          .hard ("failed to create temporary output directory: " ++ e)) ∧
    (∀ (disk : DiskEnv) (api : ApiEnv) (t : Int) (args : GetJobLogsArgs)
        (raw dir e : String), ArgsValid args → api.getJobLog = .ok raw →
        api.statusOK = true → disk.mkdirTemp = .ok dir →
        disk.createFile = .error e → t > 0 →
        EstimateTokens (joblogsProcess raw) > t →
        getJobLogs disk api t args =
          .hard ("failed to create log file: " ++ e)) ∧
    (∀ (disk : DiskEnv) (api : ApiEnv) (t : Int) (args : GetJobLogsArgs)
        (raw dir e : String), ArgsValid args → api.getJobLog = .ok raw →
        api.statusOK = true → disk.mkdirTemp = .ok dir →
        disk.createFile = .ok () → disk.writeFile = .error e → t > 0 →
        EstimateTokens (joblogsProcess raw) > t →
        getJobLogs disk api t args =
          .hard ("failed to write log file: " ++ e)) := by
  refine ⟨?_, ?_, ?_, ?_, ?_, ?_, ?_, ?_, ?_, ?_⟩
  · intro disk api t args h
    simp [getJobLogs, h]
  · intro disk api t args h1 h2
    simp [getJobLogs, h1, h2]
  · intro disk api t args h1 h2 h3
    simp [getJobLogs, h1, h2, h3]
  · intro disk api t args h1 h2 h3 h4
    simp [getJobLogs, h1, h2, h3, h4]
  · intro disk api t args e hargs hapi
    obtain ⟨h1, h2, h3, h4⟩ := hargs
    simp [getJobLogs, h1, h2, h3, h4, hapi]
  · intro disk api t args raw body hargs hapi hstatus hbody
    obtain ⟨h1, h2, h3, h4⟩ := hargs
    simp [getJobLogs, h1, h2, h3, h4, hapi, hstatus, hbody]
  · intro compile m parseDuration resolve p e hcompile hresolve
    simp [searchLogsRun, validateSearchPattern, hcompile, newParquetReader,
      hresolve]
  · intro disk api t args raw e hargs hapi hstatus hmk ht htok
    obtain ⟨h1, h2, h3, h4⟩ := hargs
    simp [getJobLogs, h1, h2, h3, h4, hapi, hstatus, handleLargeLogFile, hmk,
      ht, htok]
  · intro disk api t args raw dir e hargs hapi hstatus hmk hcf ht htok
    obtain ⟨h1, h2, h3, h4⟩ := hargs
    simp [getJobLogs, h1, h2, h3, h4, hapi, hstatus, handleLargeLogFile, hmk,
      hcf, ht, htok]
  · intro disk api t args raw dir e hargs hapi hstatus hmk hcf hwr ht htok
    obtain ⟨h1, h2, h3, h4⟩ := hargs
    simp [getJobLogs, h1, h2, h3, h4, hapi, hstatus, handleLargeLogFile, hmk,
      hcf, hwr, ht, htok]

/-- Search request used to exercise a cache-resolution failure. -/
def searchParamsPlainDemo : SearchLogsParams :=
  { base := baseDemo, pattern := "error", limit := 100 }

/-- A request missing its `pipeline_slug` field. -/
def argsNoPipelineDemo : GetJobLogsArgs :=
  { orgSlug := "acme", pipelineSlug := "", buildNumber := "42",
    jobUUID := "0193-abc" }

/-- A disk environment whose log-file creation fails. -/
def diskCreateFailDemo : DiskEnv :=
  { mkdirTemp := .ok "/tmp/buildkite-job-logs-123"
    createFile := .error "permission denied"
    writeFile := .ok (), statSize := .ok 0 }

/-- A disk environment whose log-file write fails. -/
def diskWriteFailDemo : DiskEnv :=
  { mkdirTemp := .ok "/tmp/buildkite-job-logs-123", createFile := .ok ()
    writeFile := .error "no space left on device", statSize := .ok 0 }

/-- Witness for claim C7: a missing required field, a failing API call
and a cache-resolution failure during search are all reported softly
inside the envelope, while file-creation and write failures during
file-mode delivery are hard protocol-level faults. -/
theorem external_failure_propagation_witness :
    getJobLogs diskOkDemo apiOkDemo 0 argsNoPipelineDemo =
      .soft "pipeline_slug parameter is required" ∧
    getJobLogs diskOkDemo
        { getJobLog := .error "connection refused", statusOK := true
          readBody := .ok "" } 0 argsDemo = .soft "connection refused" ∧
    (searchLogsRun goRegexpCompileModel (fun _ _ _ => true)
        goParseDurationModel (fun _ _ => .error "host unreachable")
        searchParamsPlainDemo).outcome =
      .soft "Failed to create log reader: failed to download/cache logs: host unreachable" ∧
    getJobLogs diskCreateFailDemo apiOkDemo 1 argsDemo =
      .hard "failed to create log file: permission denied" ∧
    getJobLogs diskWriteFailDemo apiOkDemo 1 argsDemo =
      .hard "failed to write log file: no space left on device" :=
  ⟨external_failure_propagation.2.1 diskOkDemo apiOkDemo 0 argsNoPipelineDemo
    (by decide) rfl,
   external_failure_propagation.2.2.2.2.1 diskOkDemo _ 0 argsDemo
    "connection refused" (by decide) rfl,
   external_failure_propagation.2.2.2.2.2.2.1 goRegexpCompileModel _
    goParseDurationModel _ searchParamsPlainDemo "host unreachable"
    (by decide) rfl,
   external_failure_propagation.2.2.2.2.2.2.2.2.1 diskCreateFailDemo apiOkDemo
    1 argsDemo "hello world!" "/tmp/buildkite-job-logs-123" "permission denied"
    (by decide) rfl rfl rfl rfl (by decide) (by decide),
   external_failure_propagation.2.2.2.2.2.2.2.2.2 diskWriteFailDemo apiOkDemo
    1 argsDemo "hello world!" "/tmp/buildkite-job-logs-123"
    "no space left on device" (by decide) rfl rfl rfl rfl rfl (by decide)
    (by decide)⟩

/-! ## Claim C3 — invalid patterns short-circuit before cache access -/

/-- Claim C3: for every Search request whose pattern does not compile,
the handler returns a soft validation error describing the invalid
pattern and performs no cache access — the result is the same for every
cache-resolution capability `resolve`, and the run records
`cacheAccessed = false`. -/
theorem searchLogs_invalid_pattern_short_circuits
    (compile : String → Option String) (m : Bool → String → String → Bool)
    (parseDuration : String → Option Int)
    (resolve : Int → Bool → Except String Snapshot)
    (p : SearchLogsParams) (err : String)
    (h : compile p.pattern = some err) :
    searchLogsRun compile m parseDuration resolve p =
      { outcome := .soft ("invalid regex pattern: " ++ err)
        cacheAccessed := false } := by
  simp [searchLogsRun, validateSearchPattern, h]

/-- Search request with the spec's scenario-E pattern `[`. -/
def searchParamsBadPatternDemo : SearchLogsParams :=
  { base := baseDemo, pattern := "[", limit := 100 }

/-- Witness for claim C3: the pattern `[` is rejected with a soft error
before any cache access. -/
theorem searchLogs_invalid_pattern_short_circuits_witness :
    searchLogsRun goRegexpCompileModel (fun _ _ _ => true)
        goParseDurationModel (fun _ _ => .ok ⟨[]⟩)
        searchParamsBadPatternDemo =
      { outcome := .soft "invalid regex pattern: error parsing regexp: missing closing ]: `[`"
        cacheAccessed := false } :=
  searchLogs_invalid_pattern_short_circuits goRegexpCompileModel _
    goParseDurationModel _ searchParamsBadPatternDemo _ rfl

/-! ## Claim C2 — forward search and seekStart -/

/-- The match count of a search outcome, when it succeeded. -/
def outcomeMatchCount : ToolOutcome (List SearchResult) → Option Nat
  | .ok rs => some rs.length
  | _ => none

/-- A one-row snapshot whose single entry matches. -/
def snapOneRowDemo : Snapshot :=
  ⟨[{ timestamp := 0, group := "", content := "ERROR: boom",
      isCommand := false, rowNumber := 0 }]⟩

/-- Forward search request with `seekStart = 5`, beyond the one-row
snapshot's total row count. -/
def searchParamsSeekBeyondDemo : SearchLogsParams :=
  { base := baseDemo, pattern := "", reverse := false, seekStart := 5,
    limit := 100 }

/-- Claim C2 is violated by the code: the handler builds the library
`SearchOptions` without copying the request's `seekStart`, so a forward
search with `seekStart = 5` against a well-formed one-row snapshot still
scans from row 0 and returns one match, where the claim requires an
empty result set. -/
theorem searchLogs_seekStart_dropped :
    Snapshot.WellFormed snapOneRowDemo ∧
    searchParamsSeekBeyondDemo.seekStart = 5 ∧
    snapOneRowDemo.rowCount = 1 ∧
    (buildSearchOptions searchParamsSeekBeyondDemo).seekStart = 0 ∧
    outcomeMatchCount (searchLogsRun goRegexpCompileModel (fun _ _ _ => true)
        goParseDurationModel (fun _ _ => .ok snapOneRowDemo)
        searchParamsSeekBeyondDemo).outcome = some 1 := by
  refine ⟨fun i => ?_, rfl, rfl, rfl, by decide⟩
  fin_cases i
  rfl

/-! ## Claim C4 — Tail returns the last min(n, totalRows) rows -/

/-- Row numbers along a dropped suffix of a well-formed snapshot. -/
theorem drop_rowNumbers (snap : Snapshot) (hwf : snap.WellFormed) (k : Nat) :
    ∀ i : Fin (snap.entries.drop k).length,
      ((snap.entries.drop k).get i).rowNumber = ((k + i.val : Nat) : Int) := by
  rintro ⟨j, hj⟩
  have hj' : j < snap.entries.length - k := by simpa using hj
  have hkj : k + j < snap.entries.length := by omega
  have hget : (snap.entries.drop k).get ⟨j, hj⟩ = snap.entries.get ⟨k + j, hkj⟩ := by
    simp [List.getElem_drop]
  rw [hget, hwf ⟨k + j, hkj⟩]

/-- A well-formed one-row snapshot. -/
def snapSingleDemo : Snapshot :=
  ⟨[{ timestamp := 0, group := "", content := "hello", isCommand := false,
      rowNumber := 0 }]⟩

/-- Claim C4 counterexample: on a well-formed one-row snapshot, `Tail(0)`
does not return `min(0, totalRows) = 0` entries — the handler coerces
`n ≤ 0` to the default 10 and returns the whole row. -/
theorem tail_zero_cex :
    Snapshot.WellFormed snapSingleDemo ∧
    (tailLogsEntries 0 snapSingleDemo).length ≠
      min ((0 : Int).toNat) snapSingleDemo.entries.length := by
  refine ⟨fun i => ?_, by decide⟩
  fin_cases i
  rfl

/-- Claim C4 (amended): for every well-formed snapshot and every
requested count `n ≥ 1`, `Tail(n)` returns exactly
`min(n, totalRows)` entries — the last `min(n, totalRows)` rows, i.e.
rows `[totalRows − min(n, totalRows), totalRows)`, in ascending
row-number order; a requested count `≤ 0` is coerced to the default 10. -/
theorem tail_last_min_rows (n : Int) (snap : Snapshot)
    (hn : 1 ≤ n) (hwf : snap.WellFormed) :
    (tailLogsEntries n snap).length = min n.toNat snap.entries.length ∧
    (∀ i : Fin (tailLogsEntries n snap).length,
      ((tailLogsEntries n snap).get i).rowNumber =
        ((snap.entries.length - min n.toNat snap.entries.length : Nat) : Int)
          + (i.val : Int)) ∧
    (∀ k : Int, k ≤ 0 → tailLogsEntries k snap = tailLogsEntries 10 snap) := by
  have hdrop := tailLogsEntries_eq_drop n snap hn
  have hk : snap.entries.length - n.toNat =
      snap.entries.length - min n.toNat snap.entries.length := by omega
  refine ⟨?_, ?_, ?_⟩
  · rw [hdrop, List.length_drop]
    omega
  · intro i
    rw [List.get_of_eq hdrop i, drop_rowNumbers snap hwf _ _]
    push_cast
    omega
  · intro k hk0
    have h10 : ¬ ((10 : Int) ≤ 0) := by norm_num
    simp [tailLogsEntries, hk0, h10]

/-- A well-formed two-row snapshot. -/
def snapPairDemo : Snapshot :=
  ⟨[{ timestamp := 0, group := "", content := "a", isCommand := false,
      rowNumber := 0 },
    { timestamp := 0, group := "", content := "b", isCommand := false,
      rowNumber := 1 }]⟩

/-- Witness for claim C4 (amended): `Tail(5)` on the two-row snapshot
returns `min(5, 2) = 2` entries. -/
theorem tail_last_min_rows_witness :
    (tailLogsEntries 5 snapPairDemo).length =
      min ((5 : Int).toNat) snapPairDemo.entries.length :=
  (tail_last_min_rows 5 snapPairDemo (by norm_num)
    (by intro i; fin_cases i <;> rfl)).1

/-! ## Claim C5 — Read returns the requested window -/

/-- Claim C5: for every well-formed snapshot, every `seek ≥ 0` and every
`limit > 0`, `Read(seek, limit)` returns at most `limit` entries —
exactly those whose row number lies in
`[seek, seek + limit) ∩ [0, totalRows)` in ascending row order — and the
collection loop never consumes the source past `limit` entries. -/
theorem read_window (seek limit : Int) (snap : Snapshot)
    (hseek : 0 ≤ seek) (hlimit : 0 < limit) (hwf : snap.WellFormed) :
    (readLogsEntries seek limit snap).length ≤ limit.toNat ∧
    (readLogsEntries seek limit snap).length =
      min limit.toNat (snap.entries.length - seek.toNat) ∧
    (∀ i : Fin (readLogsEntries seek limit snap).length,
      ((readLogsEntries seek limit snap).get i).rowNumber =
        seek + (i.val : Int)) ∧
    (∀ e ∈ readLogsEntries seek limit snap,
      seek ≤ e.rowNumber ∧ e.rowNumber < seek + limit ∧
        0 ≤ e.rowNumber ∧ e.rowNumber < snap.rowCount) ∧
    (∀ xs ys : List ParquetLogEntry, limit.toNat ≤ xs.length →
      collectLimited limit 0 (xs ++ ys) = collectLimited limit 0 xs) := by
  have hdt := readLogsEntries_eq_drop_take seek limit snap hseek hlimit
  have hlen : (readLogsEntries seek limit snap).length =
      min limit.toNat (snap.entries.length - seek.toNat) := by
    rw [hdt, List.length_take, List.length_drop]
  have hidx : ∀ i : Fin (readLogsEntries seek limit snap).length,
      ((readLogsEntries seek limit snap).get i).rowNumber =
        seek + (i.val : Int) := by
    intro i
    rw [List.get_of_eq hdt i]
    rcases i with ⟨j, hj⟩
    have hj' : j < min limit.toNat (snap.entries.length - seek.toNat) := by
      rw [← hlen]; exact hj
    have hjd : j < (snap.entries.drop seek.toNat).length := by
      simp only [List.length_drop]; omega
    have htk : ((snap.entries.drop seek.toNat).take limit.toNat).get
        ⟨j, by simpa [List.length_take] using hj'⟩ =
          (snap.entries.drop seek.toNat).get ⟨j, hjd⟩ := by
      simp [List.getElem_take]
    rw [htk, drop_rowNumbers snap hwf seek.toNat ⟨j, hjd⟩]
    have := Int.toNat_of_nonneg hseek
    push_cast
    omega
  refine ⟨by omega, hlen, hidx, ?_, ?_⟩
  · intro e he
    obtain ⟨i, hi⟩ := List.mem_iff_get.mp he
    have hrow := hidx i
    rw [hi] at hrow
    have hil : (i.val : Int) < (limit.toNat : Int) := by
      have := i.isLt
      omega
    have hlt : i.val < snap.entries.length - seek.toNat := by
      have := i.isLt
      omega
    have hseekN := Int.toNat_of_nonneg hseek
    refine ⟨by omega, ?_, by omega, ?_⟩
    · have : (limit.toNat : Int) = limit := by omega
      omega
    · rw [Snapshot.rowCount]
      omega
  · intro xs ys h
    exact collectLimited_append limit xs ys hlimit h

/-- A well-formed six-row snapshot (the spec's scenario corpus). -/
def snapSixDemo : Snapshot :=
  ⟨[{ timestamp := 0, group := "", content := "row0", isCommand := false,
      rowNumber := 0 },
    { timestamp := 0, group := "", content := "row1", isCommand := false,
      rowNumber := 1 },
    { timestamp := 0, group := "", content := "row2", isCommand := false,
      rowNumber := 2 },
    { timestamp := 0, group := "", content := "row3", isCommand := false,
      rowNumber := 3 },
    { timestamp := 0, group := "", content := "row4", isCommand := false,
      rowNumber := 4 },
    { timestamp := 0, group := "", content := "row5", isCommand := false,
      rowNumber := 5 }]⟩

/-- Witness for claim C5: `Read(seek = 2, limit = 2)` on the six-row
snapshot returns exactly `min(2, 6 − 2) = 2` entries. -/
theorem read_window_witness :
    (readLogsEntries 2 2 snapSixDemo).length =
      min ((2 : Int).toNat) (snapSixDemo.entries.length - (2 : Int).toNat) :=
  (read_window 2 2 snapSixDemo (by norm_num) (by norm_num)
    (by intro i; fin_cases i <;> rfl)).2.1

/-! ## Claim C9 — structured encodings and the row number -/

/-- An entry at row 0 of a snapshot. -/
def entryRowZeroDemo : ParquetLogEntry :=
  { timestamp := 0, group := "", content := "first", isCommand := false,
    rowNumber := 0 }

/-- Claim C9 counterexample: the entry at row 0 is serialized by both
structured encodings without its row-number field — the formatter only
stores row numbers `> 0` and the zero value is dropped by `omitempty`. -/
theorem row_zero_encoding_cex :
    entryRowZeroDemo.rowNumber = 0 ∧
    (encodeTerse (terseGoOfEntry false entryRowZeroDemo)).rn = none ∧
    (encodeVerbose (verboseGoOfEntry false entryRowZeroDemo)).rowNumber = none := by
  decide

/-- Claim C9 (amended): both structured encodings carry the entry's row
number for every entry whose row number is positive; the entry at row 0
is serialized with the row-number field omitted (its zero value falls to
`omitempty`). -/
theorem structured_encodings_carry_positive_rowNumber
    (preserveANSI : Bool) (e : ParquetLogEntry) (h : e.rowNumber > 0) :
    (encodeTerse (terseGoOfEntry preserveANSI e)).rn = some e.rowNumber ∧
    (encodeVerbose (verboseGoOfEntry preserveANSI e)).rowNumber =
      some e.rowNumber := by
  have hne : e.rowNumber ≠ 0 := by omega
  constructor
  · simp [terseGoOfEntry, encodeTerse, omitemptyInt, h, hne]
  · simp [verboseGoOfEntry, encodeVerbose, omitemptyInt, h, hne]

/-- An entry at row 42. -/
def entryRow42Demo : ParquetLogEntry :=
  { timestamp := 0, group := "", content := "line", isCommand := false,
    rowNumber := 42 }

/-- Witness for claim C9 (amended): the row-42 entry carries `rn = 42`
in the terse encoding and `rowNumber = 42` in the verbose encoding. -/
theorem structured_encodings_carry_positive_rowNumber_witness :
    (encodeTerse (terseGoOfEntry false entryRow42Demo)).rn = some 42 ∧
    (encodeVerbose (verboseGoOfEntry false entryRow42Demo)).rowNumber =
      some 42 :=
  structured_encodings_carry_positive_rowNumber false entryRow42Demo
    (by norm_num [entryRow42Demo])

/-! ## Claim C10 — cache TTL parsing falls back to 30 seconds -/

/-- Claim C10: for every `cache_ttl` string that is empty or that the
duration parser rejects, the TTL used for cache resolution is exactly 30
seconds; a malformed `cache_ttl` never causes a validation error or any
other failure — the search handler behaves exactly as with the default
TTL. -/
theorem parseCacheTTL_fallback :
    (∀ (parseDuration : String → Option Int) (s : String),
      s = "" ∨ parseDuration s = none →
        parseCacheTTL parseDuration s = 30 * nsPerSecond) ∧
    (∀ (compile : String → Option String) (m : Bool → String → String → Bool)
        (parseDuration : String → Option Int)
        (resolve : Int → Bool → Except String Snapshot)
        (p : SearchLogsParams),
      parseDuration p.base.cacheTTL = none →
        searchLogsRun compile m parseDuration resolve p =
          searchLogsRun compile m parseDuration resolve
            { p with base := { p.base with cacheTTL := "" } }) := by
  constructor
  · intro parseDuration s h
    rcases h with h | h
    · simp [parseCacheTTL, h]
    · by_cases hs : s = ""
      · simp [parseCacheTTL, hs]
      · simp [parseCacheTTL, hs, h]
  · intro compile m parseDuration resolve p h
    have httl : parseCacheTTL parseDuration p.base.cacheTTL =
        parseCacheTTL parseDuration "" := by
      by_cases hs : p.base.cacheTTL = ""
      · rw [hs]
      · simp [parseCacheTTL, hs, h]
    obtain ⟨⟨o, pl, b, j, fmt, r, pa, ct, fr⟩, pat, c, bc, ac, cs, im, rv, ss, lm⟩ := p
    simp only [searchLogsRun, newParquetReader, buildSearchOptions] at httl ⊢
    rw [httl]

/-- Witness for claim C10: the unparsable TTL `banana` falls back to the
30-second default. -/
theorem parseCacheTTL_fallback_witness :
    parseCacheTTL goParseDurationModel "banana" = 30 * nsPerSecond :=
  parseCacheTTL_fallback.1 goParseDurationModel "banana" (Or.inr rfl)

end BuildkiteMCP
